import Mathlib

/-!
Shallow embedding of `validators/validate_artifacts.py` from the FileMover
repository, together with theorems settling the frozen claims about the
validator `validate_run`.

Modelling conventions:
* A parsed JSON / YAML-as-JSON value is a `JVal` (Python `json.loads` result).
  Dicts are association lists whose keys are unique by construction of the
  parser, numbers are modelled as integers (no claim concerns numerics).
* Python `dict.get(key, default)` is `JVal.get`; calling it on a non-dict
  raises `AttributeError`, modelled as `Except.error (PyErr.attributeError "get")`.
* The filesystem interactions of one `validate_run` call are abstracted into
  a `RunEnv` record: whether the run directory exists, whether the upward
  walk of `_find_project_root` finds `chimera.yaml`, the parse outcome of the
  configuration, and presence plus parse outcome of the three artifact files.
* Printing via `_err` and `_ok` is modelled by returning the list of emitted
  lines next to the boolean result; an uncaught Python exception is the
  `Except.error` branch of the result.
-/

/-- Parsed JSON value as produced by Python `json.loads`. -/
inductive JVal where
  | null : JVal
  | bool : Bool → JVal
  | num : Int → JVal
  | str : String → JVal
  | arr : List JVal → JVal
  | obj : List (String × JVal) → JVal

/-- Single-quote character as a string (used by Python f-string messages). -/
def quo : String := "\x27"

mutual
/-- Python `repr` of a JSON value (escaping inside string literals is not
reproduced; no claim inspects the repr of a composite value). -/
def pyRepr : JVal → String
  | JVal.null => "None"
  | JVal.bool true => "True"
  | JVal.bool false => "False"
  | JVal.num n => toString n
  | JVal.str s => quo ++ s ++ quo
  | JVal.arr xs => "[" ++ pyReprArr xs ++ "]"
  | JVal.obj fs => "\x7b" ++ pyReprObj fs ++ "\x7d"

/-- Comma-joined reprs of the elements of a Python list. -/
def pyReprArr : List JVal → String
  | [] => ""
  | [x] => pyRepr x
  | x :: y :: rest => pyRepr x ++ ", " ++ pyReprArr (y :: rest)

/-- Comma-joined `key: value` reprs of the items of a Python dict. -/
def pyReprObj : List (String × JVal) → String
  | [] => ""
  | [kv] => quo ++ kv.1 ++ quo ++ ": " ++ pyRepr kv.2
  | kv :: y :: rest => quo ++ kv.1 ++ quo ++ ": " ++ pyRepr kv.2 ++ ", " ++ pyReprObj (y :: rest)
end

/-- Python `str()` of a JSON value: identity on strings, `None`/`True`/`False`
for null and booleans, decimal for numbers, repr for lists and dicts. -/
def pyStr : JVal → String
  | JVal.null => "None"
  | JVal.bool true => "True"
  | JVal.bool false => "False"
  | JVal.num n => toString n
  | JVal.str s => s
  | JVal.arr xs => pyRepr (JVal.arr xs)
  | JVal.obj fs => pyRepr (JVal.obj fs)

/-- Python truthiness of a JSON value (used by `roles = cfg.get("roles") or {}`). -/
def pyTruthy : JVal → Bool
  | JVal.null => false
  | JVal.bool b => b
  | JVal.num n => n != 0
  | JVal.str s => s != ""
  | JVal.arr xs => !xs.isEmpty
  | JVal.obj fs => !fs.isEmpty

/-- Uncaught Python exception escaping `validate_run`; the only such
exception reachable from the modelled code is `AttributeError` raised by
calling `.get` on a value that is not a dict. -/
inductive PyErr where
  | attributeError : String → PyErr
deriving DecidableEq

/-- Python `value.get(key, default)`: dictionary lookup with a default;
raises `AttributeError` when `value` is not a dict (source: every
`.get(...)` call in `validate_artifacts.py`). -/
def JVal.get : JVal → String → JVal → Except PyErr JVal
  | JVal.obj fs, key, dflt => Except.ok ((List.lookup key fs).getD dflt)
  | _, _, _ => Except.error (PyErr.attributeError "get")

/-- Source `_ensure_list_of_strings` (lines 197-203): `None` becomes the
empty tuple, a list becomes the tuple of stringified elements, any other
value becomes a one-element tuple of its stringification. -/
def _ensure_list_of_strings : JVal → List String
  | JVal.null => []
  | JVal.arr xs => xs.map pyStr
  | v => [pyStr v]

/-- Source `ArtifactBundle` dataclass (lines 29-33). -/
structure ArtifactBundle where
  intent : JVal
  instructions : JVal
  diff : JVal

/-- Abstraction of the filesystem state one `validate_run` call observes:
run-directory existence, success of the `chimera.yaml` upward search, the
outcome of reading and JSON-parsing the configuration (error carries the
Python exception text), presence of each artifact file, and the outcome of
JSON-parsing each artifact when present. -/
structure RunEnv where
  runPath : String
  dirOk : Bool
  rootFound : Bool
  config : Except String JVal
  intentPresent : Bool
  instructionsPresent : Bool
  diffPresent : Bool
  intentData : Except String JVal
  instructionsData : Except String JVal
  diffData : Except String JVal

/-- Message printed at line 52 for a missing or non-directory run path. -/
def msg_dir (p : String) : String :=
  "Run directory does not exist or is not a directory: " ++ p

/-- Message printed at line 57 when no ancestor holds `chimera.yaml`. -/
def msg_no_root : String :=
  "Could not locate project root containing " ++ quo ++ "chimera.yaml" ++ quo ++ "."

/-- Message printed at line 63 when reading or parsing `chimera.yaml` raises. -/
def msg_cfg_fail (e : String) : String :=
  "Failed to load chimera.yaml: " ++ e

/-- Message printed at line 68 for an unsupported configuration version. -/
def msg_version (v : String) : String :=
  "Unsupported chimera.yaml version " ++ quo ++ v ++ quo ++ ". Expected " ++ quo ++ "1.0" ++ quo ++ "."

/-- Message printed at line 80 when loading an artifact raises a non-file-not-found error. -/
def msg_load_fail (e : String) : String :=
  "Failed to load artifacts: " ++ e

/-- Message of the `FileNotFoundError` raised at line 156. -/
def msg_missing_files (missing : List String) : String :=
  "Missing artifact file(s): " ++ String.intercalate ", " missing

/-- Message printed at lines 186-188 when some `run_id` is empty. -/
def msg_missing_run_id : String :=
  "Missing run_id in one or more artifacts (files: intent.json, instructions.json, diff.json)."

/-- Message printed at line 192 when the three run ids differ. -/
def msg_run_id_mismatch (a b c : String) : String :=
  "Run ID mismatch across artifacts: intent=" ++ quo ++ a ++ quo ++ ", instructions=" ++ quo ++ b ++ quo ++ ", diff=" ++ quo ++ c ++ quo ++ "."

/-- Message printed at lines 96-98 when the intent author role is not TRUNK. -/
def msg_role : String :=
  "Intent author role must be TRUNK (file: intent.json, field: author.role)."

/-- Message printed at lines 100-102 for a TRUNK membership failure. -/
def msg_trunk_member : String :=
  "Intent author is not a member of roles.TRUNK (file: intent.json, field: author.actor)."

/-- Message printed at lines 108-111 for an instructions BRANCH membership failure. -/
def msg_instr_member : String :=
  "Instructions author is not a member of roles.BRANCH (file: instructions.json, field: author.actor)."

/-- Message printed at lines 112-115 for a diff BRANCH membership failure. -/
def msg_diff_member : String :=
  "Diff author is not a member of roles.BRANCH (file: diff.json, field: author.actor)."

/-- Message printed at line 118 on success. -/
def msg_success : String :=
  "Artifacts validated successfully."

/-- Exceptions raised inside `_load_artifacts` and caught separately by
`validate_run` lines 77-80: `FileNotFoundError` versus any other exception. -/
inductive LoadErr where
  | fileNotFound : String → LoadErr
  | other : String → LoadErr

/-- Source `_load_artifacts` (lines 149-162): collect the names of absent
artifact files; if any, raise `FileNotFoundError` naming all of them;
otherwise parse `intent.json`, `instructions.json`, `diff.json` in that
order, a parse failure raising an ordinary exception. -/
def _load_artifacts (env : RunEnv) : Except LoadErr ArtifactBundle :=
  let missing :=
    (if env.intentPresent then [] else ["intent.json"]) ++
    (if env.instructionsPresent then [] else ["instructions.json"]) ++
    (if env.diffPresent then [] else ["diff.json"])
  if missing.isEmpty then
    match env.intentData with
    | Except.error e => Except.error (LoadErr.other e)
    | Except.ok i =>
      match env.instructionsData with
      | Except.error e => Except.error (LoadErr.other e)
      | Except.ok n =>
        match env.diffData with
        | Except.error e => Except.error (LoadErr.other e)
        | Except.ok d => Except.ok ⟨i, n, d⟩
  else Except.error (LoadErr.fileNotFound (msg_missing_files missing))

/-- Source `_schema_gate` (lines 165-177): stubbed, always passes. -/
def _schema_gate (_ : ArtifactBundle) : Bool := true

/-- String coercions of the three `run_id` fields (source lines 181-183):
`str(artifact.get("run_id", ""))` for each artifact in order. -/
def runIds (a : ArtifactBundle) : Except PyErr (String × String × String) := do
  let i ← a.intent.get "run_id" (JVal.str "")
  let n ← a.instructions.get "run_id" (JVal.str "")
  let d ← a.diff.get "run_id" (JVal.str "")
  Except.ok (pyStr i, pyStr n, pyStr d)

/-- Source `_check_run_id_consistency` (lines 180-194): all three coerced
run ids must be non-empty (Python truthiness of `str`), then all equal;
the boolean result is paired with the lines printed by `_err`. -/
def _check_run_id_consistency (a : ArtifactBundle) : Except PyErr (Bool × List String) := do
  let r ← runIds a
  if r.1 = "" ∨ r.2.1 = "" ∨ r.2.2 = "" then
    Except.ok (false, [msg_missing_run_id])
  else if ¬(r.1 = r.2.1 ∧ r.2.1 = r.2.2) then
    Except.ok (false, [msg_run_id_mismatch r.1 r.2.1 r.2.2])
  else
    Except.ok (true, [])

/-- Source lines 92-93: `str(intent.get("author", {}).get("actor", ""))` and
`str(intent.get("author", {}).get("role", ""))`, actor first. -/
def authorFields (doc : JVal) : Except PyErr (String × String) := do
  let author ← doc.get "author" (JVal.obj [])
  let actor ← author.get "actor" (JVal.str "")
  let role ← author.get "role" (JVal.str "")
  Except.ok (pyStr actor, pyStr role)

/-- Source lines 105-106: `str(doc.get("author", {}).get("actor", ""))`. -/
def actorField (doc : JVal) : Except PyErr String := do
  let author ← doc.get "author" (JVal.obj [])
  let actor ← author.get "actor" (JVal.str "")
  Except.ok (pyStr actor)

/-- Source line 66: `str(chimera_cfg.get("version", ""))`. -/
def versionGet (cfg : JVal) : Except PyErr String := do
  let v ← cfg.get "version" (JVal.str "")
  Except.ok (pyStr v)

/-- Source lines 70-72: `roles = cfg.get("roles") or \x7b\x7d` followed by
`set(_ensure_list_of_strings(roles.get("TRUNK")))` and likewise for BRANCH
(sets are modelled as lists, membership being all the code uses). -/
def rolesGet (cfg : JVal) : Except PyErr (List String × List String) := do
  let roles0 ← cfg.get "roles" JVal.null
  let roles := if pyTruthy roles0 then roles0 else JVal.obj []
  let t ← roles.get "TRUNK" JVal.null
  let b ← roles.get "BRANCH" JVal.null
  Except.ok (_ensure_list_of_strings t, _ensure_list_of_strings b)

/-- Source lines 86-118 of `validate_run` (the cross-file checks, the
Consistency Checker of the specification): run-id consistency, intent role
gate, TRUNK membership, then instructions and diff BRANCH membership, in
this order with an early return on each failure. -/
def crossPart (artifacts : ArtifactBundle) (trunk_roles branch_roles : List String) :
    Except PyErr (Bool × List String) := do
  let rc ← _check_run_id_consistency artifacts
  if rc.1 = false then
    Except.ok (false, rc.2)
  else do
    let af ← authorFields artifacts.intent
    if af.2 ≠ "TRUNK" then
      Except.ok (false, [msg_role])
    else if af.1 ∉ trunk_roles then
      Except.ok (false, [msg_trunk_member])
    else do
      let instr_author ← actorField artifacts.instructions
      let diff_author ← actorField artifacts.diff
      if instr_author ∉ branch_roles then
        Except.ok (false, [msg_instr_member])
      else if diff_author ∉ branch_roles then
        Except.ok (false, [msg_diff_member])
      else
        Except.ok (true, [msg_success])

/-- Source `validate_run` (lines 40-118): directory check, project-root
discovery, configuration load, version pin, role-set extraction, artifact
load with its two except clauses, schema gate, then the cross-file checks.
The boolean result is paired with the printed lines; `Except.error` is an
uncaught Python exception. -/
def validate_run (env : RunEnv) : Except PyErr (Bool × List String) :=
  if env.dirOk = false then Except.ok (false, [msg_dir env.runPath])
  else if env.rootFound = false then Except.ok (false, [msg_no_root])
  else
    match env.config with
    | Except.error e => Except.ok (false, [msg_cfg_fail e])
    | Except.ok cfg => do
      let version ← versionGet cfg
      if version ≠ "1.0" then Except.ok (false, [msg_version version])
      else do
        let tb ← rolesGet cfg
        match _load_artifacts env with
        | Except.error (LoadErr.fileNotFound m) => Except.ok (false, [m])
        | Except.error (LoadErr.other m) => Except.ok (false, [msg_load_fail m])
        | Except.ok artifacts =>
          if _schema_gate artifacts = false then Except.ok (false, [])
          else crossPart artifacts tb.1 tb.2

/-- Bind of a successful computation in the exception monad reduces to the
continuation applied to the value. -/
@[simp] theorem exc_ok_bind {α β : Type} (x : α) (f : α → Except PyErr β) :
    (Except.ok x >>= f : Except PyErr β) = f x := rfl

/-- Boolean test that `t` is a prefix of `l` (character lists). -/
def charsHasPre : List Char → List Char → Bool
  | [], _ => true
  | _ :: _, [] => false
  | c :: cs, d :: ds => (c == d) && charsHasPre cs ds

/-- Boolean search for an occurrence of `t` anywhere in the second list. -/
def charsFind (t : List Char) : List Char → Bool
  | [] => charsHasPre t []
  | c :: cs => charsHasPre t (c :: cs) || charsFind t cs

/-- Boolean test that the string `t` occurs inside the string `s`. -/
def strHas (s t : String) : Bool := charsFind t.data s.data

/-- Proposition that the string `t` occurs inside the string `s`. -/
def strOccurs (t s : String) : Prop := ∃ a b : List Char, s.data = a ++ (t.data ++ b)

/-- Every string occurs in itself. -/
theorem strOccurs_self (t : String) : strOccurs t t := ⟨[], [], by simp⟩

/-- Occurrence is preserved by prepending. -/
theorem strOccurs_append_left (p : String) {t s : String} (h : strOccurs t s) :
    strOccurs t (p ++ s) := by
  obtain ⟨a, b, hb⟩ := h
  exact ⟨p.data ++ a, b, by simp [String.data_append, hb]⟩

/-- Occurrence is preserved by appending. -/
theorem strOccurs_append_right (q : String) {t s : String} (h : strOccurs t s) :
    strOccurs t (s ++ q) := by
  obtain ⟨a, b, hb⟩ := h
  exact ⟨a, b ++ q.data, by simp [String.data_append, hb, List.append_assoc]⟩

/-- A verified prefix yields a decomposition of the list. -/
theorem charsHasPre_decomp {t l : List Char} (h : charsHasPre t l = true) :
    ∃ r, l = t ++ r := by
  induction t generalizing l with
  | nil => exact ⟨l, rfl⟩
  | cons c cs ih =>
    cases l with
    | nil => simp [charsHasPre] at h
    | cons d ds =>
      rw [charsHasPre, Bool.and_eq_true, beq_iff_eq] at h
      obtain ⟨r, hr⟩ := ih h.2
      exact ⟨r, by rw [h.1, hr]; rfl⟩

/-- A successful search yields a decomposition of the list. -/
theorem charsFind_decomp {t l : List Char} (h : charsFind t l = true) :
    ∃ a r, l = a ++ (t ++ r) := by
  induction l with
  | nil =>
    obtain ⟨r, hr⟩ := charsHasPre_decomp (t := t) (l := []) h
    exact ⟨[], r, by simpa using hr⟩
  | cons c cs ih =>
    rw [charsFind, Bool.or_eq_true] at h
    cases h with
    | inl h =>
      obtain ⟨r, hr⟩ := charsHasPre_decomp h
      exact ⟨[], r, by simpa using hr⟩
    | inr h =>
      obtain ⟨a, r, hr⟩ := ih h
      exact ⟨c :: a, r, by simp [hr]⟩

/-- Boolean occurrence implies propositional occurrence. -/
theorem strHas_occurs {s t : String} (h : strHas s t = true) : strOccurs t s :=
  charsFind_decomp h

/-- Under the hypotheses that the run directory exists, the project root is
found, the configuration parses with version pinned to 1.0 and role sets
extracted, and the artifacts load, `validate_run` reduces to the cross-file
checks. -/
theorem validate_run_reach (env : RunEnv) (cfg : JVal) (trunk branch : List String)
    (a : ArtifactBundle)
    (h1 : env.dirOk = true) (h2 : env.rootFound = true)
    (h3 : env.config = Except.ok cfg)
    (h4 : versionGet cfg = Except.ok "1.0")
    (h5 : rolesGet cfg = Except.ok (trunk, branch))
    (h6 : _load_artifacts env = Except.ok a) :
    validate_run env = crossPart a trunk branch := by
  simp [validate_run, h1, h2, h3, h4, h5, h6, _schema_gate]

/-- Cross-file checks fail with the run-id presence message when some coerced
run id is empty (source lines 185-188). -/
theorem crossPart_missing_id (a : ArtifactBundle) (trunk branch : List String)
    (rI rN rD : String) (hr : runIds a = Except.ok (rI, rN, rD))
    (hc : rI = "" ∨ rN = "" ∨ rD = "") :
    crossPart a trunk branch = Except.ok (false, [msg_missing_run_id]) := by
  simp [crossPart, _check_run_id_consistency, hr, hc]

/-- Cross-file checks fail with the mismatch message when the run ids are
non-empty but not all equal (source lines 190-193). -/
theorem crossPart_mismatch (a : ArtifactBundle) (trunk branch : List String)
    (rI rN rD : String) (hr : runIds a = Except.ok (rI, rN, rD))
    (hne1 : rI ≠ "") (hne2 : rN ≠ "") (hne3 : rD ≠ "")
    (hq : ¬(rI = rN ∧ rN = rD)) :
    crossPart a trunk branch = Except.ok (false, [msg_run_id_mismatch rI rN rD]) := by
  by_cases hab : rI = rN
  · have hbd : rN ≠ rD := fun h => hq ⟨hab, h⟩
    simp [crossPart, _check_run_id_consistency, hr, hne1, hne2, hne3, hab, hbd]
  · simp [crossPart, _check_run_id_consistency, hr, hne1, hne2, hne3, hab]

/-- Cross-file checks fail with the role message when the run ids are
consistent but the intent author role is not TRUNK (source lines 95-98). -/
theorem crossPart_bad_role (a : ArtifactBundle) (trunk branch : List String)
    (rI rN rD actI roleI : String) (hr : runIds a = Except.ok (rI, rN, rD))
    (hne1 : rI ≠ "") (hne2 : rN ≠ "") (hne3 : rD ≠ "")
    (hq1 : rI = rN) (hq2 : rN = rD)
    (hi : authorFields a.intent = Except.ok (actI, roleI))
    (hrole : roleI ≠ "TRUNK") :
    crossPart a trunk branch = Except.ok (false, [msg_role]) := by
  simp [crossPart, _check_run_id_consistency, hr, hne1, hne2, hne3, hq1, hq2, hi, hrole]

/-- Cross-file checks fail with the TRUNK membership message when the run ids
are consistent, the role is TRUNK, but the intent actor is not in the TRUNK
set (source lines 99-102). -/
theorem crossPart_bad_trunk (a : ArtifactBundle) (trunk branch : List String)
    (rI rN rD actI : String) (hr : runIds a = Except.ok (rI, rN, rD))
    (hne1 : rI ≠ "") (hne2 : rN ≠ "") (hne3 : rD ≠ "")
    (hq1 : rI = rN) (hq2 : rN = rD)
    (hi : authorFields a.intent = Except.ok (actI, "TRUNK"))
    (hm : actI ∉ trunk) :
    crossPart a trunk branch = Except.ok (false, [msg_trunk_member]) := by
  simp [crossPart, _check_run_id_consistency, hr, hne1, hne2, hne3, hq1, hq2, hi, hm]

/-- Cross-file checks fail with the instructions BRANCH membership message
when everything earlier passes but the instructions actor is not in the
BRANCH set (source lines 108-111). -/
theorem crossPart_bad_instr (a : ArtifactBundle) (trunk branch : List String)
    (rI rN rD actI actN actD : String) (hr : runIds a = Except.ok (rI, rN, rD))
    (hne1 : rI ≠ "") (hne2 : rN ≠ "") (hne3 : rD ≠ "")
    (hq1 : rI = rN) (hq2 : rN = rD)
    (hi : authorFields a.intent = Except.ok (actI, "TRUNK"))
    (hm : actI ∈ trunk)
    (hn : actorField a.instructions = Except.ok actN)
    (hd : actorField a.diff = Except.ok actD)
    (hbn : actN ∉ branch) :
    crossPart a trunk branch = Except.ok (false, [msg_instr_member]) := by
  simp [crossPart, _check_run_id_consistency, hr, hne1, hne2, hne3, hq1, hq2, hi, hm, hn, hd, hbn]

/-- Cross-file checks fail with the diff BRANCH membership message when
everything earlier passes but the diff actor is not in the BRANCH set
(source lines 112-115). -/
theorem crossPart_bad_diff (a : ArtifactBundle) (trunk branch : List String)
    (rI rN rD actI actN actD : String) (hr : runIds a = Except.ok (rI, rN, rD))
    (hne1 : rI ≠ "") (hne2 : rN ≠ "") (hne3 : rD ≠ "")
    (hq1 : rI = rN) (hq2 : rN = rD)
    (hi : authorFields a.intent = Except.ok (actI, "TRUNK"))
    (hm : actI ∈ trunk)
    (hn : actorField a.instructions = Except.ok actN)
    (hd : actorField a.diff = Except.ok actD)
    (hbn : actN ∈ branch) (hbd : actD ∉ branch) :
    crossPart a trunk branch = Except.ok (false, [msg_diff_member]) := by
  simp [crossPart, _check_run_id_consistency, hr, hne1, hne2, hne3, hq1, hq2, hi, hm, hn, hd,
    hbn, hbd]

/-- Cross-file checks succeed with the success message when every check
passes (source line 118). -/
theorem crossPart_success (a : ArtifactBundle) (trunk branch : List String)
    (rI rN rD actI actN actD : String) (hr : runIds a = Except.ok (rI, rN, rD))
    (hne1 : rI ≠ "") (hne2 : rN ≠ "") (hne3 : rD ≠ "")
    (hq1 : rI = rN) (hq2 : rN = rD)
    (hi : authorFields a.intent = Except.ok (actI, "TRUNK"))
    (hm : actI ∈ trunk)
    (hn : actorField a.instructions = Except.ok actN)
    (hd : actorField a.diff = Except.ok actD)
    (hbn : actN ∈ branch) (hbd : actD ∈ branch) :
    crossPart a trunk branch = Except.ok (true, [msg_success]) := by
  simp [crossPart, _check_run_id_consistency, hr, hne1, hne2, hne3, hq1, hq2, hi, hm, hn, hd,
    hbn, hbd]

/-- TRUNK role set of the sample configuration. -/
def trunkA : List String := ["username:Trunk"]

/-- BRANCH role set of the sample configuration. -/
def branchA : List String := ["username:Branch"]

/-- Run id used by the sample artifacts (scenario A of the spec). -/
def ridA : String := "20251003-refactor-auth-module"

/-- Sample configuration: version 1.0 with one TRUNK and one BRANCH actor. -/
def cfgA : JVal := JVal.obj
  [("version", JVal.str "1.0"),
   ("roles", JVal.obj
     [("TRUNK", JVal.arr [JVal.str "username:Trunk"]),
      ("BRANCH", JVal.arr [JVal.str "username:Branch"])])]

/-- Author object with the given actor and role. -/
def mkAuthor (actor role : String) : JVal := JVal.obj
  [("actor", JVal.str actor), ("role", JVal.str role),
   ("timestamp", JVal.str "2025-10-03T12:00:00Z")]

/-- Artifact object with the given run id and author. -/
def mkArtifact (rid : String) (author : JVal) : JVal := JVal.obj
  [("schema_version", JVal.str "1.0"), ("run_id", JVal.str rid),
   ("author", author)]

/-- Valid sample intent. -/
def intentA : JVal := mkArtifact ridA (mkAuthor "username:Trunk" "TRUNK")

/-- Valid sample instructions. -/
def instrA : JVal := mkArtifact ridA (mkAuthor "username:Branch" "BRANCH")

/-- Valid sample diff. -/
def diffA : JVal := mkArtifact ridA (mkAuthor "username:Branch" "BRANCH")

/-- Run environment with an existing directory, a found project root, and
the given parsed configuration and artifact documents, all files present. -/
def mkEnv (cfg intent instr diff : JVal) : RunEnv :=
  ⟨"runs/20251003-refactor-auth-module", true, true, Except.ok cfg,
   true, true, true, Except.ok intent, Except.ok instr, Except.ok diff⟩

/-- Fully valid sample environment (scenario A of the spec). -/
def envA : RunEnv := mkEnv cfgA intentA instrA diffA

/-- Specification-side numbering of the six cross-file checks of section 4.5
of the spec, in the spec order: 0 run-id presence, 1 run-id equality,
2 intent role gate, 3 intent TRUNK membership, 4 instructions BRANCH
membership, 5 diff BRANCH membership; `checkViolated i` holds when check `i`
is violated by the given extracted values. -/
def checkViolated (i : Nat) (rI rN rD roleI actI actN actD : String)
    (trunk branch : List String) : Prop :=
  match i with
  | 0 => rI = "" ∨ rN = "" ∨ rD = ""
  | 1 => ¬(rI = rN ∧ rN = rD)
  | 2 => roleI ≠ "TRUNK"
  | 3 => actI ∉ trunk
  | 4 => actN ∉ branch
  | 5 => actD ∉ branch
  | _ => False

/-- Diagnostic the code emits for each of the six checks. -/
def checkMsg (i : Nat) (rI rN rD : String) : String :=
  match i with
  | 0 => msg_missing_run_id
  | 1 => msg_run_id_mismatch rI rN rD
  | 2 => msg_role
  | 3 => msg_trunk_member
  | 4 => msg_instr_member
  | 5 => msg_diff_member
  | _ => ""

/-- C1: `validate_run` applies the consistency checks in the exact spec
order (run-id presence, run-id equality, intent role gate, intent TRUNK
membership, instructions BRANCH membership, diff BRANCH membership),
short-circuiting on the first failure: on every run whose artifacts violate
more than one check it returns false, and the single emitted diagnostic is
the one of the earliest violated check in that order. -/
theorem validate_run_fail_fast_order (env : RunEnv) (cfg : JVal)
    (trunk branch : List String) (a : ArtifactBundle)
    (rI rN rD roleI actI actN actD : String)
    (h1 : env.dirOk = true) (h2 : env.rootFound = true)
    (h3 : env.config = Except.ok cfg)
    (h4 : versionGet cfg = Except.ok "1.0")
    (h5 : rolesGet cfg = Except.ok (trunk, branch))
    (h6 : _load_artifacts env = Except.ok a)
    (hr : runIds a = Except.ok (rI, rN, rD))
    (hi : authorFields a.intent = Except.ok (actI, roleI))
    (hn : actorField a.instructions = Except.ok actN)
    (hd : actorField a.diff = Except.ok actD)
    (hmulti : ∃ i j, i < j ∧
      checkViolated i rI rN rD roleI actI actN actD trunk branch ∧
      checkViolated j rI rN rD roleI actI actN actD trunk branch) :
    ∃ k, checkViolated k rI rN rD roleI actI actN actD trunk branch ∧
      (∀ j, j < k → ¬ checkViolated j rI rN rD roleI actI actN actD trunk branch) ∧
      validate_run env = Except.ok (false, [checkMsg k rI rN rD]) := by
  have hb := validate_run_reach env cfg trunk branch a h1 h2 h3 h4 h5 h6
  by_cases v0 : rI = "" ∨ rN = "" ∨ rD = ""
  · exact ⟨0, v0, fun j hj => absurd hj (Nat.not_lt_zero j),
      hb.trans (crossPart_missing_id a trunk branch rI rN rD hr v0)⟩
  · have w : rI ≠ "" ∧ rN ≠ "" ∧ rD ≠ "" := by push_neg at v0; exact v0
    by_cases v1 : rI = rN ∧ rN = rD
    case neg =>
      refine ⟨1, v1, ?_,
        hb.trans (crossPart_mismatch a trunk branch rI rN rD hr w.1 w.2.1 w.2.2 v1)⟩
      intro j hj
      interval_cases j
      · exact v0
    case pos =>
      by_cases v2 : roleI = "TRUNK"
      case neg =>
        refine ⟨2, v2, ?_,
          hb.trans (crossPart_bad_role a trunk branch rI rN rD actI roleI hr
            w.1 w.2.1 w.2.2 v1.1 v1.2 hi v2)⟩
        intro j hj
        interval_cases j
        · exact v0
        · exact fun h => h v1
      case pos =>
        have hi2 : authorFields a.intent = Except.ok (actI, "TRUNK") := by
          rw [← v2]; exact hi
        by_cases v3 : actI ∈ trunk
        case neg =>
          refine ⟨3, v3, ?_,
            hb.trans (crossPart_bad_trunk a trunk branch rI rN rD actI hr
              w.1 w.2.1 w.2.2 v1.1 v1.2 hi2 v3)⟩
          intro j hj
          interval_cases j
          · exact v0
          · exact fun h => h v1
          · exact fun h => h v2
        case pos =>
          by_cases v4 : actN ∈ branch
          case neg =>
            refine ⟨4, v4, ?_,
              hb.trans (crossPart_bad_instr a trunk branch rI rN rD actI actN actD hr
                w.1 w.2.1 w.2.2 v1.1 v1.2 hi2 v3 hn hd v4)⟩
            intro j hj
            interval_cases j
            · exact v0
            · exact fun h => h v1
            · exact fun h => h v2
            · exact fun h => h v3
          case pos =>
            by_cases v5 : actD ∈ branch
            case neg =>
              refine ⟨5, v5, ?_,
                hb.trans (crossPart_bad_diff a trunk branch rI rN rD actI actN actD hr
                  w.1 w.2.1 w.2.2 v1.1 v1.2 hi2 v3 hn hd v4 v5)⟩
              intro j hj
              interval_cases j
              · exact v0
              · exact fun h => h v1
              · exact fun h => h v2
              · exact fun h => h v3
              · exact fun h => h v4
            case pos =>
              exfalso
              obtain ⟨i, j, hij, hvi, hvj⟩ := hmulti
              have hall : ∀ m, ¬ checkViolated m rI rN rD roleI actI actN actD trunk branch := by
                intro m
                match m with
                | 0 => exact v0
                | 1 => exact fun h => h v1
                | 2 => exact fun h => h v2
                | 3 => exact fun h => h v3
                | 4 => exact fun h => h v4
                | 5 => exact fun h => h v5
                | (n+6) => exact fun h => h
              exact hall i hvi

/-- Intent whose author role is the lowercase string branch. -/
def intentBadRole : JVal := mkArtifact ridA (mkAuthor "username:Trunk" "branch")

/-- Diff authored by an actor not listed in the BRANCH set. -/
def diffBadActor : JVal := mkArtifact ridA (mkAuthor "username:Intruder" "BRANCH")

/-- Environment violating both the role gate and the diff BRANCH membership. -/
def envC1 : RunEnv := mkEnv cfgA intentBadRole instrA diffBadActor

/-- C1 witness: a run violating checks 2 and 5 gets the diagnostic of the
earliest violated check. -/
theorem validate_run_fail_fast_order_witness :
    ∃ k, checkViolated k ridA ridA ridA "branch" "username:Trunk" "username:Branch"
        "username:Intruder" trunkA branchA ∧
      (∀ j, j < k → ¬ checkViolated j ridA ridA ridA "branch" "username:Trunk"
        "username:Branch" "username:Intruder" trunkA branchA) ∧
      validate_run envC1 = Except.ok (false, [checkMsg k ridA ridA ridA]) :=
  validate_run_fail_fast_order envC1 cfgA trunkA branchA
    ⟨intentBadRole, instrA, diffBadActor⟩ ridA ridA ridA "branch" "username:Trunk"
    "username:Branch" "username:Intruder" rfl rfl rfl rfl rfl rfl rfl rfl rfl rfl
    ⟨2, 5, by omega,
      show ("branch" : String) ≠ "TRUNK" by decide,
      show ("username:Intruder" : String) ∉ branchA by decide⟩

/-- C2: on every run whose directory exists, whose discovered configuration
has version 1.0, whose three artifacts are present and parse, whose three
coerced run ids are non-empty and pairwise equal, whose intent author role
is exactly TRUNK with an actor in the configured TRUNK set, and whose
instructions and diff actors are in the configured BRANCH set,
`validate_run` returns true and emits the success line. -/
theorem validate_run_valid_run_true (env : RunEnv) (cfg : JVal)
    (trunk branch : List String) (a : ArtifactBundle)
    (rI rN rD actI actN actD : String)
    (h1 : env.dirOk = true) (h2 : env.rootFound = true)
    (h3 : env.config = Except.ok cfg)
    (h4 : versionGet cfg = Except.ok "1.0")
    (h5 : rolesGet cfg = Except.ok (trunk, branch))
    (h6 : _load_artifacts env = Except.ok a)
    (hr : runIds a = Except.ok (rI, rN, rD))
    (hne1 : rI ≠ "") (hne2 : rN ≠ "") (hne3 : rD ≠ "")
    (hq1 : rI = rN) (hq2 : rN = rD)
    (hi : authorFields a.intent = Except.ok (actI, "TRUNK"))
    (hm : actI ∈ trunk)
    (hn : actorField a.instructions = Except.ok actN)
    (hd : actorField a.diff = Except.ok actD)
    (hbn : actN ∈ branch) (hbd : actD ∈ branch) :
    validate_run env = Except.ok (true, [msg_success]) :=
  (validate_run_reach env cfg trunk branch a h1 h2 h3 h4 h5 h6).trans
    (crossPart_success a trunk branch rI rN rD actI actN actD hr hne1 hne2 hne3
      hq1 hq2 hi hm hn hd hbn hbd)

/-- C2 witness: the fully valid sample run validates with the success line. -/
theorem validate_run_valid_run_true_witness :
    validate_run envA = Except.ok (true, [msg_success]) :=
  validate_run_valid_run_true envA cfgA trunkA branchA ⟨intentA, instrA, diffA⟩
    ridA ridA ridA "username:Trunk" "username:Branch" "username:Branch"
    rfl rfl rfl rfl rfl rfl rfl (by decide) (by decide) (by decide) rfl rfl rfl
    (by decide) rfl rfl (by decide) (by decide)

/-- C3: on every run passing the run-id checks, a non-TRUNK intent author
role makes `validate_run` return false with the diagnostic naming the
offending field, and with role TRUNK an intent actor outside the configured
TRUNK set makes it return false with a diagnostic containing TRUNK and a
membership term. -/
theorem validate_run_trunk_role_gate (env : RunEnv) (cfg : JVal)
    (trunk branch : List String) (a : ArtifactBundle)
    (rI rN rD actI roleI : String)
    (h1 : env.dirOk = true) (h2 : env.rootFound = true)
    (h3 : env.config = Except.ok cfg)
    (h4 : versionGet cfg = Except.ok "1.0")
    (h5 : rolesGet cfg = Except.ok (trunk, branch))
    (h6 : _load_artifacts env = Except.ok a)
    (hr : runIds a = Except.ok (rI, rN, rD))
    (hne1 : rI ≠ "") (hne2 : rN ≠ "") (hne3 : rD ≠ "")
    (hq1 : rI = rN) (hq2 : rN = rD)
    (hi : authorFields a.intent = Except.ok (actI, roleI)) :
    (roleI ≠ "TRUNK" →
      validate_run env = Except.ok (false, [msg_role]) ∧
      strOccurs "author.role" msg_role ∧ strOccurs "intent.json" msg_role) ∧
    (roleI = "TRUNK" → actI ∉ trunk →
      validate_run env = Except.ok (false, [msg_trunk_member]) ∧
      strOccurs "TRUNK" msg_trunk_member ∧ strOccurs "member" msg_trunk_member) := by
  have hb := validate_run_reach env cfg trunk branch a h1 h2 h3 h4 h5 h6
  constructor
  · intro hrole
    exact ⟨hb.trans (crossPart_bad_role a trunk branch rI rN rD actI roleI hr
        hne1 hne2 hne3 hq1 hq2 hi hrole),
      strHas_occurs (by decide), strHas_occurs (by decide)⟩
  · intro hrole hm
    have hi2 : authorFields a.intent = Except.ok (actI, "TRUNK") := by
      rw [← hrole]; exact hi
    exact ⟨hb.trans (crossPart_bad_trunk a trunk branch rI rN rD actI hr
        hne1 hne2 hne3 hq1 hq2 hi2 hm),
      strHas_occurs (by decide), strHas_occurs (by decide)⟩

/-- Intent whose author role reads BRANCH instead of TRUNK. -/
def intentRoleBranch : JVal := mkArtifact ridA (mkAuthor "username:Trunk" "BRANCH")

/-- Environment whose intent author role is BRANCH. -/
def envC3 : RunEnv := mkEnv cfgA intentRoleBranch instrA diffA

/-- C3 witness: instantiation at a run whose intent author role is BRANCH. -/
theorem validate_run_trunk_role_gate_witness :
    (("BRANCH" : String) ≠ "TRUNK" →
      validate_run envC3 = Except.ok (false, [msg_role]) ∧
      strOccurs "author.role" msg_role ∧ strOccurs "intent.json" msg_role) ∧
    (("BRANCH" : String) = "TRUNK" → ("username:Trunk" : String) ∉ trunkA →
      validate_run envC3 = Except.ok (false, [msg_trunk_member]) ∧
      strOccurs "TRUNK" msg_trunk_member ∧ strOccurs "member" msg_trunk_member) :=
  validate_run_trunk_role_gate envC3 cfgA trunkA branchA
    ⟨intentRoleBranch, instrA, diffA⟩ ridA ridA ridA "username:Trunk" "BRANCH"
    rfl rfl rfl rfl rfl rfl rfl (by decide) (by decide) (by decide) rfl rfl rfl

/-- C4: on every run passing all earlier checks, an instructions actor or a
diff actor outside the configured BRANCH set makes `validate_run` return
false with a diagnostic containing BRANCH and a membership term. -/
theorem validate_run_branch_membership_gate (env : RunEnv) (cfg : JVal)
    (trunk branch : List String) (a : ArtifactBundle)
    (rI rN rD actI actN actD : String)
    (h1 : env.dirOk = true) (h2 : env.rootFound = true)
    (h3 : env.config = Except.ok cfg)
    (h4 : versionGet cfg = Except.ok "1.0")
    (h5 : rolesGet cfg = Except.ok (trunk, branch))
    (h6 : _load_artifacts env = Except.ok a)
    (hr : runIds a = Except.ok (rI, rN, rD))
    (hne1 : rI ≠ "") (hne2 : rN ≠ "") (hne3 : rD ≠ "")
    (hq1 : rI = rN) (hq2 : rN = rD)
    (hi : authorFields a.intent = Except.ok (actI, "TRUNK"))
    (hm : actI ∈ trunk)
    (hn : actorField a.instructions = Except.ok actN)
    (hd : actorField a.diff = Except.ok actD)
    (hviol : actN ∉ branch ∨ actD ∉ branch) :
    ∃ m, validate_run env = Except.ok (false, [m]) ∧
      strOccurs "BRANCH" m ∧ strOccurs "member" m := by
  have hb := validate_run_reach env cfg trunk branch a h1 h2 h3 h4 h5 h6
  by_cases hbn : actN ∈ branch
  · have hbd : actD ∉ branch := hviol.resolve_left (not_not_intro hbn)
    exact ⟨msg_diff_member,
      hb.trans (crossPart_bad_diff a trunk branch rI rN rD actI actN actD hr
        hne1 hne2 hne3 hq1 hq2 hi hm hn hd hbn hbd),
      strHas_occurs (by decide), strHas_occurs (by decide)⟩
  · exact ⟨msg_instr_member,
      hb.trans (crossPart_bad_instr a trunk branch rI rN rD actI actN actD hr
        hne1 hne2 hne3 hq1 hq2 hi hm hn hd hbn),
      strHas_occurs (by decide), strHas_occurs (by decide)⟩

/-- Instructions authored by an actor not listed in the BRANCH set. -/
def instrBadActor : JVal := mkArtifact ridA (mkAuthor "username:Intruder" "BRANCH")

/-- Environment whose instructions author is not in the BRANCH set. -/
def envC4 : RunEnv := mkEnv cfgA intentA instrBadActor diffA

/-- C4 witness: instantiation at a run with an unlisted instructions actor. -/
theorem validate_run_branch_membership_gate_witness :
    ∃ m, validate_run envC4 = Except.ok (false, [m]) ∧
      strOccurs "BRANCH" m ∧ strOccurs "member" m :=
  validate_run_branch_membership_gate envC4 cfgA trunkA branchA
    ⟨intentA, instrBadActor, diffA⟩ ridA ridA ridA "username:Trunk"
    "username:Intruder" "username:Branch"
    rfl rfl rfl rfl rfl rfl rfl (by decide) (by decide) (by decide) rfl rfl rfl
    (by decide) rfl rfl (Or.inl (by decide))

/-- C5: on every run whose three coerced run ids are non-empty but not all
equal under exact string equality, `validate_run` returns false and the
diagnostic names all three literal run id values and a run-id mismatch term. -/
theorem validate_run_mismatch_diagnostic (env : RunEnv) (cfg : JVal)
    (trunk branch : List String) (a : ArtifactBundle)
    (rI rN rD : String)
    (h1 : env.dirOk = true) (h2 : env.rootFound = true)
    (h3 : env.config = Except.ok cfg)
    (h4 : versionGet cfg = Except.ok "1.0")
    (h5 : rolesGet cfg = Except.ok (trunk, branch))
    (h6 : _load_artifacts env = Except.ok a)
    (hr : runIds a = Except.ok (rI, rN, rD))
    (hne1 : rI ≠ "") (hne2 : rN ≠ "") (hne3 : rD ≠ "")
    (hq : ¬(rI = rN ∧ rN = rD)) :
    validate_run env = Except.ok (false, [msg_run_id_mismatch rI rN rD]) ∧
    strOccurs rI (msg_run_id_mismatch rI rN rD) ∧
    strOccurs rN (msg_run_id_mismatch rI rN rD) ∧
    strOccurs rD (msg_run_id_mismatch rI rN rD) ∧
    strOccurs "Run ID mismatch" (msg_run_id_mismatch rI rN rD) := by
  have hb := validate_run_reach env cfg trunk branch a h1 h2 h3 h4 h5 h6
  refine ⟨hb.trans (crossPart_mismatch a trunk branch rI rN rD hr hne1 hne2 hne3 hq),
    ?_, ?_, ?_, ?_⟩
  all_goals simp only [msg_run_id_mismatch]
  all_goals
    repeat
      first
      | exact strOccurs_append_left _ (strOccurs_self _)
      | apply strOccurs_append_right
      | exact strHas_occurs (by decide)

/-- Diff carrying a different run id (scenario B of the spec). -/
def diffWrongId : JVal := mkArtifact "20251003-wrong-id" (mkAuthor "username:Branch" "BRANCH")

/-- Environment whose diff run id disagrees with intent and instructions. -/
def envC5 : RunEnv := mkEnv cfgA intentA instrA diffWrongId

/-- C5 witness: instantiation at a run whose diff run id differs. -/
theorem validate_run_mismatch_diagnostic_witness :
    validate_run envC5 = Except.ok (false, [msg_run_id_mismatch ridA ridA "20251003-wrong-id"]) ∧
    strOccurs ridA (msg_run_id_mismatch ridA ridA "20251003-wrong-id") ∧
    strOccurs ridA (msg_run_id_mismatch ridA ridA "20251003-wrong-id") ∧
    strOccurs "20251003-wrong-id" (msg_run_id_mismatch ridA ridA "20251003-wrong-id") ∧
    strOccurs "Run ID mismatch" (msg_run_id_mismatch ridA ridA "20251003-wrong-id") :=
  validate_run_mismatch_diagnostic envC5 cfgA trunkA branchA
    ⟨intentA, instrA, diffWrongId⟩ ridA ridA "20251003-wrong-id"
    rfl rfl rfl rfl rfl rfl rfl (by decide) (by decide) (by decide) (by decide)

/-- Characterization of `_load_artifacts` when at least one file is absent:
it raises `FileNotFoundError` naming exactly the absent files. -/
theorem load_artifacts_missing (env : RunEnv)
    (hmiss : env.intentPresent = false ∨ env.instructionsPresent = false ∨
      env.diffPresent = false) :
    _load_artifacts env = Except.error (LoadErr.fileNotFound (msg_missing_files (
      (if env.intentPresent then [] else ["intent.json"]) ++
      (if env.instructionsPresent then [] else ["instructions.json"]) ++
      (if env.diffPresent then [] else ["diff.json"])))) := by
  cases hI : env.intentPresent <;> cases hN : env.instructionsPresent <;>
    cases hD : env.diffPresent <;> simp_all [_load_artifacts]

/-- Bridge: a `FileNotFoundError` from the artifact loader is caught and
its message printed (source lines 77-78). -/
theorem validate_run_fnf (env : RunEnv) (cfg : JVal)
    (p : List String × List String) (m : String)
    (h1 : env.dirOk = true) (h2 : env.rootFound = true)
    (h3 : env.config = Except.ok cfg)
    (h4 : versionGet cfg = Except.ok "1.0")
    (h5 : rolesGet cfg = Except.ok p)
    (hload : _load_artifacts env = Except.error (LoadErr.fileNotFound m)) :
    validate_run env = Except.ok (false, [m]) := by
  simp [validate_run, h1, h2, h3, h4, h5, hload]

/-- C6: on every run directory missing one or more of the three artifact
files, `validate_run` returns false and the diagnostic names every absent
file and no present file. -/
theorem validate_run_missing_artifacts (env : RunEnv) (cfg : JVal)
    (p : List String × List String)
    (h1 : env.dirOk = true) (h2 : env.rootFound = true)
    (h3 : env.config = Except.ok cfg)
    (h4 : versionGet cfg = Except.ok "1.0")
    (h5 : rolesGet cfg = Except.ok p)
    (hmiss : env.intentPresent = false ∨ env.instructionsPresent = false ∨
      env.diffPresent = false) :
    ∃ m, validate_run env = Except.ok (false, [m]) ∧
      strHas m "intent.json" = !env.intentPresent ∧
      strHas m "instructions.json" = !env.instructionsPresent ∧
      strHas m "diff.json" = !env.diffPresent := by
  have hv := validate_run_fnf env cfg p _ h1 h2 h3 h4 h5 (load_artifacts_missing env hmiss)
  cases hI : env.intentPresent <;> cases hN : env.instructionsPresent <;>
    cases hD : env.diffPresent
  all_goals rw [hI, hN, hD] at hv
  all_goals simp at hv
  all_goals exact ⟨_, hv, by decide, by decide, by decide⟩

/-- Environment whose diff artifact file is absent (scenario D of the spec). -/
def envC6 : RunEnv :=
  ⟨"runs/20251003-refactor-auth-module", true, true, Except.ok cfgA,
   true, true, false, Except.ok intentA, Except.ok instrA, Except.ok diffA⟩

/-- C6 witness: instantiation at a run missing only the diff artifact. -/
theorem validate_run_missing_artifacts_witness :
    ∃ m, validate_run envC6 = Except.ok (false, [m]) ∧
      strHas m "intent.json" = !envC6.intentPresent ∧
      strHas m "instructions.json" = !envC6.instructionsPresent ∧
      strHas m "diff.json" = !envC6.diffPresent :=
  validate_run_missing_artifacts envC6 cfgA (trunkA, branchA)
    rfl rfl rfl rfl rfl (Or.inr (Or.inr rfl))

/-- C7: on every run whose discovered configuration carries a version other
than 1.0, `validate_run` returns false with a diagnostic mentioning version
and 1.0, whatever the artifact files contain and whether they exist at all:
the artifact fields of the environment are unconstrained here. -/
theorem validate_run_version_gate (env : RunEnv) (cfg : JVal) (v : String)
    (h1 : env.dirOk = true) (h2 : env.rootFound = true)
    (h3 : env.config = Except.ok cfg)
    (h4 : versionGet cfg = Except.ok v) (hv : v ≠ "1.0") :
    validate_run env = Except.ok (false, [msg_version v]) ∧
    strOccurs "version" (msg_version v) ∧ strOccurs "1.0" (msg_version v) := by
  refine ⟨by simp [validate_run, h1, h2, h3, h4, hv], ?_, ?_⟩
  all_goals simp only [msg_version]
  all_goals
    repeat
      first
      | exact strOccurs_append_left _ (strOccurs_self _)
      | apply strOccurs_append_right
      | exact strHas_occurs (by decide)

/-- Configuration pinned to version 2.0. -/
def cfgV2 : JVal := JVal.obj [("version", JVal.str "2.0")]

/-- Environment with a version 2.0 configuration and all artifacts absent. -/
def envC7 : RunEnv :=
  ⟨"runs/20251003-refactor-auth-module", true, true, Except.ok cfgV2,
   false, false, false, Except.ok intentA, Except.ok instrA, Except.ok diffA⟩

/-- C7 witness: instantiation at a run with version 2.0 and no artifacts. -/
theorem validate_run_version_gate_witness :
    validate_run envC7 = Except.ok (false, [msg_version "2.0"]) ∧
    strOccurs "version" (msg_version "2.0") ∧ strOccurs "1.0" (msg_version "2.0") :=
  validate_run_version_gate envC7 cfgV2 "2.0" rfl rfl rfl rfl (by decide)

/-- C8 (amended): on every run where at least one coerced run id is empty,
`validate_run` returns false with the fixed diagnostic that mentions run_id
and names all three artifact files, regardless of which documents suffer. -/
theorem validate_run_empty_run_id_fixed_msg (env : RunEnv) (cfg : JVal)
    (trunk branch : List String) (a : ArtifactBundle)
    (rI rN rD : String)
    (h1 : env.dirOk = true) (h2 : env.rootFound = true)
    (h3 : env.config = Except.ok cfg)
    (h4 : versionGet cfg = Except.ok "1.0")
    (h5 : rolesGet cfg = Except.ok (trunk, branch))
    (h6 : _load_artifacts env = Except.ok a)
    (hr : runIds a = Except.ok (rI, rN, rD))
    (hempty : rI = "" ∨ rN = "" ∨ rD = "") :
    validate_run env = Except.ok (false, [msg_missing_run_id]) ∧
    strOccurs "run_id" msg_missing_run_id ∧
    strOccurs "intent.json" msg_missing_run_id ∧
    strOccurs "instructions.json" msg_missing_run_id ∧
    strOccurs "diff.json" msg_missing_run_id :=
  ⟨(validate_run_reach env cfg trunk branch a h1 h2 h3 h4 h5 h6).trans
     (crossPart_missing_id a trunk branch rI rN rD hr hempty),
   strHas_occurs (by decide), strHas_occurs (by decide),
   strHas_occurs (by decide), strHas_occurs (by decide)⟩

/-- Intent with no run_id field at all. -/
def intentNoId : JVal := JVal.obj
  [("schema_version", JVal.str "1.0"),
   ("author", mkAuthor "username:Trunk" "TRUNK")]

/-- Environment where only the intent lacks a run id. -/
def envC8 : RunEnv := mkEnv cfgA intentNoId instrA diffA

/-- C8 counterexample: on a run where only the intent suffers a missing
run id, the coerced ids are the empty string for intent and the shared id
for instructions and diff, yet the emitted diagnostic is the fixed message
that also names instructions.json and diff.json, so it does not name
specifically which documents suffer. -/
theorem empty_run_id_msg_not_specific :
    validate_run envC8 = Except.ok (false, [msg_missing_run_id]) ∧
    runIds ⟨intentNoId, instrA, diffA⟩ = Except.ok ("", ridA, ridA) ∧
    strHas msg_missing_run_id "instructions.json" = true ∧
    strHas msg_missing_run_id "diff.json" = true :=
  ⟨rfl, rfl, by decide, by decide⟩

/-- C8 witness: instantiation of the amended claim at the run where only
the intent lacks a run id. -/
theorem validate_run_empty_run_id_fixed_msg_witness :
    validate_run envC8 = Except.ok (false, [msg_missing_run_id]) ∧
    strOccurs "run_id" msg_missing_run_id ∧
    strOccurs "intent.json" msg_missing_run_id ∧
    strOccurs "instructions.json" msg_missing_run_id ∧
    strOccurs "diff.json" msg_missing_run_id :=
  validate_run_empty_run_id_fixed_msg envC8 cfgA trunkA branchA
    ⟨intentNoId, instrA, diffA⟩ "" ridA ridA
    rfl rfl rfl rfl rfl rfl rfl (Or.inl rfl)

/-- Environment whose chimera.yaml parses as a JSON array (valid JSON that
is not an object), with perfectly valid artifacts. -/
def envC9 : RunEnv := mkEnv (JVal.arr []) intentA instrA diffA

/-- C9: contrary to the claim that every normal-misuse error is recovered
into a boolean false plus one diagnostic line, a chimera.yaml whose content
parses as a JSON array makes line 66 of the source call `.get` on a list,
and the resulting `AttributeError` propagates out of `validate_run`
uncaught; the embedded pipeline evaluates at that input to the uncaught
exception instead of a boolean. -/
theorem validate_run_array_config_raises :
    validate_run envC9 = Except.error (PyErr.attributeError "get") := rfl

/-- C10: because every run_id is read with default empty string and then
coerced with Python str, a run_id that is JSON null becomes the non-empty
string None; when all three artifacts carry run_id null, the run-id
presence and equality checks both pass. -/
theorem null_run_id_checks_pass (a : ArtifactBundle)
    (hi : a.intent.get "run_id" (JVal.str "") = Except.ok JVal.null)
    (hn : a.instructions.get "run_id" (JVal.str "") = Except.ok JVal.null)
    (hd : a.diff.get "run_id" (JVal.str "") = Except.ok JVal.null) :
    runIds a = Except.ok ("None", "None", "None") ∧
    _check_run_id_consistency a = Except.ok (true, []) := by
  have hr : runIds a = Except.ok ("None", "None", "None") := by
    simp [runIds, hi, hn, hd, pyStr]
  exact ⟨hr, by simp [_check_run_id_consistency, hr]⟩

/-- Intent carrying run_id null. -/
def intentNullId : JVal := JVal.obj
  [("run_id", JVal.null), ("author", mkAuthor "username:Trunk" "TRUNK")]

/-- Instructions carrying run_id null. -/
def instrNullId : JVal := JVal.obj
  [("run_id", JVal.null), ("author", mkAuthor "username:Branch" "BRANCH")]

/-- Diff carrying run_id null. -/
def diffNullId : JVal := JVal.obj
  [("run_id", JVal.null), ("author", mkAuthor "username:Branch" "BRANCH")]

/-- C10 witness: instantiation at a bundle whose three run ids are null. -/
theorem null_run_id_checks_pass_witness :
    runIds ⟨intentNullId, instrNullId, diffNullId⟩ = Except.ok ("None", "None", "None") ∧
    _check_run_id_consistency ⟨intentNullId, instrNullId, diffNullId⟩ = Except.ok (true, []) :=
  null_run_id_checks_pass ⟨intentNullId, instrNullId, diffNullId⟩ rfl rfl rfl
